import Mathlib

/-!
Verification of the oemof `add_constraints.py` flexible-modelling example.

The script builds an `EnergySystem` with a 4-step time index, three buses
(oil, lignite, b_el), two sources, a sink with a fixed demand flow, and two
transformers (pp_oil, pp_lig).  It then builds a `Model`, attaches
`emission_factor` and `outflow_share` extension attributes to flow objects,
registers a pyomo sub-block with an inflow-share constraint and an emission
constraint, and solves.

We embed the example shallowly: nodes are an inductive type, flows a list
of ordered node pairs, a solver solution is an assignment of rationals to
(flow, time-step) pairs, and a solution is `accepted` when it satisfies the
structural constraints the oemof Model generates (modelled from the spec,
since the oemof library source is not part of this repository) plus the two
user constraints the script adds (embedded from the script itself).
-/

/-- The labelled nodes of the example energy system:
buses oil, lignite, b_el; the two sources; the sink; the two
transformers pp_oil and pp_lig. -/
inductive Node
  | oil
  | lignite
  | b_el
  | oil_source
  | lignite_source
  | Sink
  | pp_oil
  | pp_lig
  deriving DecidableEq, Repr

open Node

/-- Number of time steps: the script builds
pd.date_range with periods=4, so N = 4. -/
def nSteps : Nat := 4

/-- The directed flow edges declared in the script, identified by the
ordered (source node, target node) pair, as oemof keys them. -/
def flowKeys : List (Node × Node) :=
  [(oil_source, oil), (lignite_source, lignite),
   (b_el, Sink),
   (oil, pp_oil), (pp_oil, b_el),
   (lignite, pp_lig), (pp_lig, b_el)]

/-- Static attributes of a Flow as constructed in the script:
optional nominal capacity, optional fixed per-step series
(actual_value), the fixed marker, and a per-step variable cost. -/
structure FlowData where
  nominal_value : Option ℚ := none
  actual_value : Option (Fin 4 → ℚ) := none
  fixed : Bool := false
  variable_costs : ℚ := 0

/-- Extension attributes later attached to flow objects by the script
(an open-ended attribute store; the script uses exactly these two names). -/
structure FlowExt where
  emission_factor : Option ℚ := none
  outflow_share : Option (Fin 4 → ℚ) := none

/-- A flow object as the constraint-extension code sees it: the static
data given at construction plus the mutable extension-attribute store. -/
structure FlowObj where
  base : FlowData
  ext : FlowExt := {}

/-- The actual_value series [0.5, 0.4, 0.3, 1] of the sink demand flow. -/
def actualSeries : Fin 4 → ℚ := ![1/2, 2/5, 3/10, 1]

/-- The static flow attributes exactly as the script constructs them:
the sink demand flow has nominal_value 40, actual_value
[0.5, 0.4, 0.3, 1] and fixed=True; the two transformer output flows
have nominal_value 50 and variable_costs 25 (pp_oil) resp. 10 (pp_lig);
all other flows are plain Flow() with no attributes. -/
def baseFlowData : Node × Node → FlowData
  | (Node.b_el, Node.Sink) =>
      { nominal_value := some 40,
        actual_value := some actualSeries,
        fixed := true }
  | (Node.pp_oil, Node.b_el) =>
      { nominal_value := some 50, variable_costs := 25 }
  | (Node.pp_lig, Node.b_el) =>
      { nominal_value := some 50, variable_costs := 10 }
  | _ => {}

/-- The transformer (converter) declarations of the script:
(input bus, transformer, output bus, conversion factor).
pp_oil converts oil to b_el with factor 0.39, pp_lig converts
lignite to b_el with factor 0.41. -/
def transformers : List (Node × Node × Node × ℚ) :=
  [(oil, pp_oil, b_el, 39/100), (lignite, pp_lig, b_el, 41/100)]

/-- The bus nodes of the system. -/
def buses : List Node := [oil, lignite, b_el]

/-- The state of the model flow map `om.flows`: for every flow key the
live flow object whose extension attributes later code can read and
write. -/
def ModelFlows : Type := Node × Node → FlowObj

/-- Attach an emission_factor extension attribute to the flow object at
key k, leaving all other flow objects and the static data unchanged
(the script writes om.flows[s, t].emission_factor = v). -/
def setEmissionFactor (m : ModelFlows) (k : Node × Node) (v : ℚ) : ModelFlows :=
  fun j => if j = k then
    { m j with ext := { (m j).ext with emission_factor := some v } }
  else m j

/-- Attach an outflow_share extension attribute to the flow object at
key k (the script writes om.flows[(boil, pp_oil)].outflow_share = ...). -/
def setOutflowShare (m : ModelFlows) (k : Node × Node) (v : Fin 4 → ℚ) : ModelFlows :=
  fun j => if j = k then
    { m j with ext := { (m j).ext with outflow_share := some v } }
  else m j

/-- The model flow map right after Model(energysystem=es): every key maps
to its constructed flow object with an empty extension store. -/
def initialFlows : ModelFlows := fun k => { base := baseFlowData k }

/-- One iteration of the script loop over om.flows.keys(): if the source
node is the oil bus, set emission_factor 0.27; if it is the lignite
bus, set emission_factor 0.39. -/
def emissionStep (m : ModelFlows) (k : Node × Node) : ModelFlows :=
  let m1 := if k.1 = oil then setEmissionFactor m k (27/100) else m
  if k.1 = lignite then setEmissionFactor m1 k (39/100) else m1

/-- The model flow map after the script has attached all extension
attributes: emission factors on every flow leaving the oil or lignite
bus, and outflow_share [1, 0.5, 0, 0.3] on the (oil, pp_oil) flow. -/
def omFlows : ModelFlows :=
  setOutflowShare (flowKeys.foldl emissionStep initialFlows)
    (oil, pp_oil) ![1, 1/2, 0, 3/10]

/-- The selector set myblock.MYFLOWS: all flow keys whose flow object has
an outflow_share attribute, evaluated over the given model flow map. -/
def myflowsOf (m : ModelFlows) : List (Node × Node) :=
  flowKeys.filter (fun k => ((m k).ext.outflow_share).isSome)

/-- The selector list myblock.COMMODITYFLOWS: all flow keys whose flow
object has an emission_factor attribute. -/
def commodityFlowsOf (m : ModelFlows) : List (Node × Node) :=
  flowKeys.filter (fun k => ((m k).ext.emission_factor).isSome)

/-- MYFLOWS as built by the script (over the post-attachment flow map). -/
def MYFLOWS : List (Node × Node) := myflowsOf omFlows

/-- COMMODITYFLOWS as built by the script. -/
def COMMODITYFLOWS : List (Node × Node) := commodityFlowsOf omFlows

/-- A candidate solver solution: a value for each decision variable
om.flow[s, e, t], i.e. for each flow key and time step. -/
def Sol : Type := Node × Node → Fin 4 → ℚ

/-- Sum of the flow variables into node n at step t (over all declared
flow keys whose target is n). -/
def sumIn (sol : Sol) (n : Node) (t : Fin 4) : ℚ :=
  ((flowKeys.filter (fun k => k.2 = n)).map (fun k => sol k t)).sum

/-- Sum of the flow variables out of node n at step t. -/
def sumOut (sol : Sol) (n : Node) (t : Fin 4) : ℚ :=
  ((flowKeys.filter (fun k => k.1 = n)).map (fun k => sol k t)).sum

/-- Modelled from the spec: the capacity/target bound the oemof Model
Builder generates for one flow variable value v at step t.  A fixed
flow with a series is pinned to nominal_value times the series entry;
a non-fixed flow with a nominal value is bounded above by it (times the
series entry when a series is present); a flow with no nominal value is
unbounded above. -/
def boundOK (f : FlowData) (v : ℚ) (t : Fin 4) : Prop :=
  match f.nominal_value, f.actual_value, f.fixed with
  | none, _, _ => True
  | some nv, some ser, true => v = nv * ser t
  | some nv, some ser, false => v ≤ nv * ser t
  | some nv, none, _ => v ≤ nv

/-- Modelled from the spec: the structural constraints the oemof Model
Builder generates from the static flow data alone — nonnegativity and
capacity/fixed bounds per flow variable, flow conservation at every bus
at every step, and the conversion-factor relation at every transformer
at every step.  Extension attributes play no part here. -/
def structuralFrom (bf : Node × Node → FlowData) (sol : Sol) : Prop :=
  (∀ k ∈ flowKeys, ∀ t : Fin 4, 0 ≤ sol k t) ∧
  (∀ k ∈ flowKeys, ∀ t : Fin 4, boundOK (bf k) (sol k t) t) ∧
  (∀ b ∈ buses, ∀ t : Fin 4, sumIn sol b t = sumOut sol b t) ∧
  (∀ e ∈ transformers, ∀ t : Fin 4,
    sol (e.2.1, e.2.2.1) t = e.2.2.2 * sol (e.1, e.2.1) t)

/-- The structural constraint set of the Model built over a flow map:
it reads only the static construction-time data of each flow object. -/
def structuralOf (m : ModelFlows) : Sol → Prop :=
  structuralFrom (fun k => (m k).base)

/-- The inflow-share constraint rule of the script, quantified over
myblock.MYFLOWS and om.TIMESTEPS: for a selected flow key (s, e) and
step t, om.flow[s, e, t] must be at least outflow_share[t] times the
sum of om.flow[i, o, t] over all flow keys (i, o) with o = e. -/
def inflowShareOKOf (m : ModelFlows) (sol : Sol) : Prop :=
  ∀ k ∈ myflowsOf m, ∀ t : Fin 4,
    (((m k).ext.outflow_share).getD (fun _ => 0)) t * sumIn sol k.2 t ≤ sol k t

/-- The total emissions expression of the script emission constraint:
sum over the COMMODITYFLOWS keys and all time steps of the flow
variable value times the emission_factor of that flow object. -/
def emissionTotalOf (m : ModelFlows) (sol : Sol) : ℚ :=
  ((commodityFlowsOf m).map (fun k =>
    ((List.finRange 4).map (fun t =>
      sol k t * (((m k).ext.emission_factor).getD 0))).sum)).sum

/-- The emission limit configured in the script. -/
def emission_limit : ℚ := 75

/-- A solution the solved Model accepts: structural constraints plus the
two user constraints of myblock (inflow share and emission limit). -/
def accepted (sol : Sol) : Prop :=
  structuralOf omFlows sol ∧ inflowShareOKOf omFlows sol ∧
    emissionTotalOf omFlows sol ≤ emission_limit

/-- A solution satisfying everything except the emission limit: the
structural constraints and the inflow-share block constraint. -/
def acceptedCore (sol : Sol) : Prop :=
  structuralOf omFlows sol ∧ inflowShareOKOf omFlows sol

/-- The demand series of the sink flow: nominal_value 40 times the
actual_value series [0.5, 0.4, 0.3, 1], i.e. [20, 16, 12, 40]. -/
def demandAt : Fin 4 → ℚ := ![20, 16, 12, 40]

/-- A concrete feasible dispatch serving the whole demand from oil:
the oil chain carries demand/0.39 up to pp_oil, pp_oil delivers the
demand to b_el, and the lignite chain is idle. -/
def oilSol : Sol := fun k t =>
  match k with
  | (Node.b_el, Node.Sink) => demandAt t
  | (Node.pp_oil, Node.b_el) => demandAt t
  | (Node.oil, Node.pp_oil) => demandAt t * 100 / 39
  | (Node.oil_source, Node.oil) => demandAt t * 100 / 39
  | _ => 0

/-- A concrete dispatch serving the whole demand from lignite (cheapest,
but over the emission limit): the lignite chain carries demand/0.41. -/
def ligSol : Sol := fun k t =>
  match k with
  | (Node.b_el, Node.Sink) => demandAt t
  | (Node.pp_lig, Node.b_el) => demandAt t
  | (Node.lignite, Node.pp_lig) => demandAt t * 100 / 41
  | (Node.lignite_source, Node.lignite) => demandAt t * 100 / 41
  | _ => 0

/-- The objective the Model builds from the variable_costs attributes:
sum over all flows and steps of variable_costs times the flow value. -/
def cost (sol : Sol) : ℚ :=
  (flowKeys.map (fun k =>
    ((List.finRange 4).map (fun t =>
      (baseFlowData k).variable_costs * sol k t)).sum)).sum

/-! ### Evaluation lemmas for the concrete system -/

lemma sumIn_oil (sol : Sol) (t : Fin 4) :
    sumIn sol oil t = sol (oil_source, oil) t + 0 := rfl

lemma sumOut_oil (sol : Sol) (t : Fin 4) :
    sumOut sol oil t = sol (oil, pp_oil) t + 0 := rfl

lemma sumIn_lignite (sol : Sol) (t : Fin 4) :
    sumIn sol lignite t = sol (lignite_source, lignite) t + 0 := rfl

lemma sumOut_lignite (sol : Sol) (t : Fin 4) :
    sumOut sol lignite t = sol (lignite, pp_lig) t + 0 := rfl

lemma sumIn_b_el (sol : Sol) (t : Fin 4) :
    sumIn sol b_el t = sol (pp_oil, b_el) t + (sol (pp_lig, b_el) t + 0) := rfl

lemma sumOut_b_el (sol : Sol) (t : Fin 4) :
    sumOut sol b_el t = sol (b_el, Sink) t + 0 := rfl

lemma sumIn_pp_oil (sol : Sol) (t : Fin 4) :
    sumIn sol pp_oil t = sol (oil, pp_oil) t + 0 := rfl

lemma setEmissionFactor_base (m : ModelFlows) (k : Node × Node) (v : ℚ)
    (j : Node × Node) : (setEmissionFactor m k v j).base = (m j).base := by
  unfold setEmissionFactor
  split <;> rfl

lemma setOutflowShare_base (m : ModelFlows) (k : Node × Node) (v : Fin 4 → ℚ)
    (j : Node × Node) : (setOutflowShare m k v j).base = (m j).base := by
  unfold setOutflowShare
  split <;> rfl

lemma emissionStep_base (m : ModelFlows) (k : Node × Node)
    (j : Node × Node) : (emissionStep m k j).base = (m j).base := by
  unfold emissionStep
  by_cases h1 : k.1 = oil <;> by_cases h2 : k.1 = lignite <;>
    simp [h1, h2, setEmissionFactor_base]

/-- Attaching extension attributes never changes the static flow data:
the flow map the script ends up with still carries the constructed
FlowData at every key. -/
lemma omFlows_base (j : Node × Node) : (omFlows j).base = baseFlowData j := by
  unfold omFlows
  rw [setOutflowShare_base]
  simp only [flowKeys, List.foldl_cons, List.foldl_nil]
  simp only [emissionStep_base]
  rfl

lemma myflows_eval : MYFLOWS = [(oil, pp_oil)] := by decide

lemma commodityFlows_eval :
    COMMODITYFLOWS = [(oil, pp_oil), (lignite, pp_lig)] := by decide

lemma omFlows_emission_oil :
    (omFlows (oil, pp_oil)).ext.emission_factor = some (27/100) := rfl

lemma omFlows_emission_lig :
    (omFlows (lignite, pp_lig)).ext.emission_factor = some (39/100) := rfl

lemma omFlows_share :
    (omFlows (oil, pp_oil)).ext.outflow_share = some ![1, 1/2, 0, 3/10] := rfl

/-- Evaluation of the emission total over the script flow map: only the
two commodity flows contribute, with factors 0.27 and 0.39. -/
lemma emissionTotal_eval (sol : Sol) : emissionTotalOf omFlows sol =
    (sol (oil, pp_oil) 0 * (27/100) + (sol (oil, pp_oil) 1 * (27/100) +
      (sol (oil, pp_oil) 2 * (27/100) + (sol (oil, pp_oil) 3 * (27/100) + 0)))) +
    ((sol (lignite, pp_lig) 0 * (39/100) + (sol (lignite, pp_lig) 1 * (39/100) +
      (sol (lignite, pp_lig) 2 * (39/100) + (sol (lignite, pp_lig) 3 * (39/100) + 0)))) + 0) := rfl

/-- Evaluation of the objective: only the two transformer output flows
carry nonzero variable costs (25 for pp_oil, 10 for pp_lig). -/
lemma cost_eval (sol : Sol) : cost sol =
    25 * (sol (pp_oil, b_el) 0 + sol (pp_oil, b_el) 1 +
          sol (pp_oil, b_el) 2 + sol (pp_oil, b_el) 3) +
    10 * (sol (pp_lig, b_el) 0 + sol (pp_lig, b_el) 1 +
          sol (pp_lig, b_el) 2 + sol (pp_lig, b_el) 3) := by
  have h : cost sol =
      (0 * sol (oil_source, oil) 0 + (0 * sol (oil_source, oil) 1 +
        (0 * sol (oil_source, oil) 2 + (0 * sol (oil_source, oil) 3 + 0)))) +
      ((0 * sol (lignite_source, lignite) 0 + (0 * sol (lignite_source, lignite) 1 +
        (0 * sol (lignite_source, lignite) 2 + (0 * sol (lignite_source, lignite) 3 + 0)))) +
      ((0 * sol (b_el, Sink) 0 + (0 * sol (b_el, Sink) 1 +
        (0 * sol (b_el, Sink) 2 + (0 * sol (b_el, Sink) 3 + 0)))) +
      ((0 * sol (oil, pp_oil) 0 + (0 * sol (oil, pp_oil) 1 +
        (0 * sol (oil, pp_oil) 2 + (0 * sol (oil, pp_oil) 3 + 0)))) +
      ((25 * sol (pp_oil, b_el) 0 + (25 * sol (pp_oil, b_el) 1 +
        (25 * sol (pp_oil, b_el) 2 + (25 * sol (pp_oil, b_el) 3 + 0)))) +
      ((0 * sol (lignite, pp_lig) 0 + (0 * sol (lignite, pp_lig) 1 +
        (0 * sol (lignite, pp_lig) 2 + (0 * sol (lignite, pp_lig) 3 + 0)))) +
      ((10 * sol (pp_lig, b_el) 0 + (10 * sol (pp_lig, b_el) 1 +
        (10 * sol (pp_lig, b_el) 2 + (10 * sol (pp_lig, b_el) 3 + 0)))) + 0)))))) := rfl
  rw [h]; ring

/-! ### Result extraction and block registration (modelled from the spec) -/

/-- Modelled from the spec: the decision-variable index set of the Model,
one variable per (flow key, time step) pair (the library builds
om.flow indexed by FLOWS x TIMESTEPS). -/
def varIndices : List ((Node × Node) × Fin 4) :=
  (flowKeys.map (fun k => (List.finRange 4).map (fun t => (k, t)))).flatten

/-- Modelled from the spec: result extraction maps each flow key to the
ordered sequence of solved values across TIMESTEPS, aligned
index-for-index with the time index (outputlib.processing.results). -/
def extractResults (sol : Sol) (k : Node × Node) : List ℚ :=
  (List.finRange 4).map (fun t => sol k t)

/-- A constraint sub-block as handed to om.add_component: its name and
the flow keys its selector set references. -/
structure SubBlock where
  name : String
  selector : List (Node × Node)

/-- The error raised when a block selector references a flow key that is
not in the Model variable space. -/
structure UnknownFlowKeyError where
  key : Node × Node
  deriving DecidableEq, Repr

/-- The block-registration bookkeeping of a Model: the list of
constraint blocks registered so far. -/
structure ModelBlocks where
  blocks : List SubBlock

/-- Modelled from the spec: add_block registers a named sub-block onto
the Model; it fails with UnknownFlowKeyError (carrying the offending
key) when the selector references a flow key absent from the Model
variable space, aborting the registration and leaving the previously
registered blocks unchanged; otherwise it appends the block. -/
def add_block (m : ModelBlocks) (b : SubBlock) :
    ModelBlocks × Option UnknownFlowKeyError :=
  match b.selector.find? (fun k => decide (k ∉ flowKeys)) with
  | some k => (m, some ⟨k⟩)
  | none => ({ blocks := m.blocks ++ [b] }, none)

lemma demand_eq_series (t : Fin 4) : (40 : ℚ) * actualSeries t = demandAt t := by
  fin_cases t <;> norm_num [actualSeries, demandAt]

lemma demand_pinned (sol : Sol) (h : structuralOf omFlows sol) :
    ∀ t : Fin 4, sol (b_el, Sink) t = demandAt t := by
  intro t
  have hb := h.2.1 (b_el, Sink) (by decide) t
  simp only [omFlows_base, baseFlowData, boundOK] at hb
  rw [hb]
  exact demand_eq_series t

lemma bel_balance (sol : Sol) (h : structuralOf omFlows sol) (t : Fin 4) :
    sol (pp_oil, b_el) t + sol (pp_lig, b_el) t = sol (b_el, Sink) t := by
  have hb := h.2.2.1 b_el (by decide) t
  simp only [sumIn_b_el, sumOut_b_el] at hb
  linarith

lemma accepted_oilSol : accepted oilSol := by
  refine ⟨⟨?_, ?_, ?_, ?_⟩, ?_, ?_⟩
  · intro k hk t
    fin_cases hk <;> fin_cases t <;> norm_num [oilSol, demandAt]
  · intro k hk t
    simp only [omFlows_base]
    fin_cases hk <;> fin_cases t <;>
      norm_num [oilSol, demandAt, baseFlowData, boundOK, actualSeries]
  · intro b hb t
    fin_cases hb <;> fin_cases t <;>
      simp only [sumIn_oil, sumOut_oil, sumIn_lignite, sumOut_lignite,
        sumIn_b_el, sumOut_b_el] <;>
      norm_num [oilSol, demandAt]
  · intro e he t
    fin_cases he <;> fin_cases t <;> norm_num [oilSol, demandAt, transformers]
  · intro k hk t
    have hk2 : k ∈ MYFLOWS := hk
    rw [myflows_eval] at hk2
    fin_cases hk2
    rw [omFlows_share]
    simp only [Option.getD_some, sumIn_pp_oil]
    fin_cases t <;> norm_num [oilSol, demandAt]
  · rw [show emissionTotalOf omFlows oilSol ≤ emission_limit ↔
        emissionTotalOf omFlows oilSol ≤ 75 from Iff.rfl]
    rw [emissionTotal_eval]
    norm_num [oilSol, demandAt]

lemma acceptedCore_ligSol : acceptedCore ligSol := by
  refine ⟨⟨?_, ?_, ?_, ?_⟩, ?_⟩
  · intro k hk t
    fin_cases hk <;> fin_cases t <;> norm_num [ligSol, demandAt]
  · intro k hk t
    simp only [omFlows_base]
    fin_cases hk <;> fin_cases t <;>
      norm_num [ligSol, demandAt, baseFlowData, boundOK, actualSeries]
  · intro b hb t
    fin_cases hb <;> fin_cases t <;>
      simp only [sumIn_oil, sumOut_oil, sumIn_lignite, sumOut_lignite,
        sumIn_b_el, sumOut_b_el] <;>
      norm_num [ligSol, demandAt]
  · intro e he t
    fin_cases he <;> fin_cases t <;> norm_num [ligSol, demandAt, transformers]
  · intro k hk t
    have hk2 : k ∈ MYFLOWS := hk
    rw [myflows_eval] at hk2
    fin_cases hk2
    rw [omFlows_share]
    simp only [Option.getD_some, sumIn_pp_oil]
    fin_cases t <;> norm_num [ligSol, demandAt]

lemma cost_ligSol : cost ligSol = 880 := by
  rw [cost_eval]; norm_num [ligSol, demandAt]

lemma ligSol_min (sol : Sol) (h : acceptedCore sol) : 880 ≤ cost sol := by
  obtain ⟨hs, _⟩ := h
  have hd := demand_pinned sol hs
  have hb := bel_balance sol hs
  have hy := fun t => hs.1 (pp_oil, b_el) (by decide) t
  have hd0 := hd 0; have hd1 := hd 1; have hd2 := hd 2; have hd3 := hd 3
  have hb0 := hb 0; have hb1 := hb 1; have hb2 := hb 2; have hb3 := hb 3
  have hy0 := hy 0; have hy1 := hy 1; have hy2 := hy 2; have hy3 := hy 3
  rw [cost_eval]
  norm_num [demandAt] at hd0 hd1 hd2 hd3
  linarith

/-! ### Claim theorems -/

/-- C1: for every Bus node in the EnergySystem (oil, lignite, b_el) and
every time step t, any solution accepted by the Model has equal total
inflow and total outflow at that bus at t (flow conservation). -/
theorem bus_balance_conservation (sol : Sol) (h : accepted sol) :
    ∀ b ∈ buses, ∀ t : Fin 4, sumIn sol b t = sumOut sol b t :=
  h.1.2.2.1

/-- Witness for C1 at the concrete all-oil dispatch and the b_el bus. -/
theorem bus_balance_conservation_witness :
    sumIn oilSol b_el 0 = sumOut oilSol b_el 0 :=
  bus_balance_conservation oilSol accepted_oilSol b_el (by decide) 0

/-- C2: the fixed sink flow is pinned exactly: in any accepted solution
its value at step t equals nominal_value 40 times actual_value[t],
i.e. the demand series [20, 16, 12, 40] (an equality, not a bound). -/
theorem fixed_flow_equality (sol : Sol) (h : accepted sol) :
    ∀ t : Fin 4, sol (b_el, Sink) t = 40 * actualSeries t ∧
      sol (b_el, Sink) t = demandAt t := by
  intro t
  have hd := demand_pinned sol h.1 t
  exact ⟨by rw [hd, demand_eq_series], hd⟩

/-- Witness for C2 at the all-oil dispatch, step 0. -/
theorem fixed_flow_equality_witness :
    oilSol (b_el, Sink) 0 = 40 * actualSeries 0 ∧
      oilSol (b_el, Sink) 0 = demandAt 0 :=
  fixed_flow_equality oilSol accepted_oilSol 0

/-- C3: any solution accepted after the emission block is added keeps
the emission total (sum over the emission_factor-tagged flows and all
steps of flow value times factor) within the configured limit 75. -/
theorem emission_limit_respected (sol : Sol) (h : accepted sol) :
    emissionTotalOf omFlows sol ≤ emission_limit ∧ emission_limit = 75 :=
  ⟨h.2.2, rfl⟩

/-- Witness for C3 at the all-oil dispatch. -/
theorem emission_limit_respected_witness :
    emissionTotalOf omFlows oilSol ≤ emission_limit ∧ emission_limit = 75 :=
  emission_limit_respected oilSol accepted_oilSol

/-- C4: the attribute-presence selectors built at block-registration
time are exact — MYFLOWS holds exactly the one key carrying
outflow_share, and COMMODITYFLOWS exactly the two keys carrying
emission_factor. -/
theorem selector_sets_exact :
    MYFLOWS = [(oil, pp_oil)] ∧
      COMMODITYFLOWS = [(oil, pp_oil), (lignite, pp_lig)] := by
  decide

/-- C5: in any accepted solution the transformer output flow at each
step equals the conversion factor times the input flow at the same
step (0.39 for pp_oil, 0.41 for pp_lig). -/
theorem converter_ratio (sol : Sol) (h : accepted sol) :
    ∀ t : Fin 4, sol (pp_oil, b_el) t = (39/100) * sol (oil, pp_oil) t ∧
      sol (pp_lig, b_el) t = (41/100) * sol (lignite, pp_lig) t := by
  intro t
  exact ⟨h.1.2.2.2 (oil, pp_oil, b_el, 39/100) (by simp [transformers]) t,
    h.1.2.2.2 (lignite, pp_lig, b_el, 41/100) (by simp [transformers]) t⟩

/-- Witness for C5 at the all-oil dispatch, step 0. -/
theorem converter_ratio_witness :
    oilSol (pp_oil, b_el) 0 = (39/100) * oilSol (oil, pp_oil) 0 ∧
      oilSol (pp_lig, b_el) 0 = (41/100) * oilSol (lignite, pp_lig) 0 :=
  converter_ratio oilSol accepted_oilSol 0

/-- C6: with variable costs 25 (pp_oil) and 10 (pp_lig) serving the
fixed demand [20, 16, 12, 40], any solution satisfying the structural
and inflow-share constraints (the constraints that never bind here;
the emission limit, which does bind, is excluded) that is cost-optimal
among such solutions allocates the full demand to the cost-10 flow and
zero to the cost-25 flow at every time step. -/
theorem cheap_flow_takes_all_demand (sol : Sol)
    (hacc : acceptedCore sol)
    (hopt : ∀ s2 : Sol, acceptedCore s2 → cost sol ≤ cost s2) :
    ∀ t : Fin 4, sol (pp_lig, b_el) t = demandAt t ∧ sol (pp_oil, b_el) t = 0 := by
  have hle : cost sol ≤ 880 := by
    have h2 := hopt ligSol acceptedCore_ligSol
    rwa [cost_ligSol] at h2
  obtain ⟨hs, hshare⟩ := hacc
  have hd := demand_pinned sol hs
  have hb := bel_balance sol hs
  have hy := fun t : Fin 4 => hs.1 (pp_oil, b_el) (by decide) t
  have hd0 := hd 0; have hd1 := hd 1; have hd2 := hd 2; have hd3 := hd 3
  have hb0 := hb 0; have hb1 := hb 1; have hb2 := hb 2; have hb3 := hb 3
  have hy0 := hy 0; have hy1 := hy 1; have hy2 := hy 2; have hy3 := hy 3
  rw [cost_eval] at hle
  norm_num [demandAt] at hd0 hd1 hd2 hd3
  intro t
  fin_cases t
  · show sol (pp_lig, b_el) 0 = demandAt 0 ∧ sol (pp_oil, b_el) 0 = 0
    norm_num [demandAt]
    constructor <;> linarith
  · show sol (pp_lig, b_el) 1 = demandAt 1 ∧ sol (pp_oil, b_el) 1 = 0
    norm_num [demandAt]
    constructor <;> linarith
  · show sol (pp_lig, b_el) 2 = demandAt 2 ∧ sol (pp_oil, b_el) 2 = 0
    norm_num [demandAt]
    constructor <;> linarith
  · show sol (pp_lig, b_el) 3 = demandAt 3 ∧ sol (pp_oil, b_el) 3 = 0
    norm_num [demandAt]
    constructor <;> linarith

/-- Witness for C6: the all-lignite dispatch is feasible without the
emission limit, is cost-optimal there, and indeed carries the whole
demand on the cheap flow at step 0. -/
theorem cheap_flow_takes_all_demand_witness :
    ligSol (pp_lig, b_el) 0 = demandAt 0 ∧ ligSol (pp_oil, b_el) 0 = 0 :=
  cheap_flow_takes_all_demand ligSol acceptedCore_ligSol
    (fun s2 h => by rw [cost_ligSol]; exact ligSol_min s2 h) 0

/-- C7: the Model has exactly N = 4 decision variables per flow key, and
result extraction yields per flow key exactly the 4 solved values in
time-index order. -/
theorem model_roundtrip_dimensions (sol : Sol) (k : Node × Node)
    (hk : k ∈ flowKeys) :
    (varIndices.filter (fun p => p.1 = k)).length = nSteps ∧
    (extractResults sol k).length = nSteps ∧
    extractResults sol k = [sol k 0, sol k 1, sol k 2, sol k 3] := by
  refine ⟨?_, rfl, rfl⟩
  fin_cases hk <;> decide

/-- Witness for C7 at the demand flow key and the all-oil dispatch. -/
theorem model_roundtrip_dimensions_witness :
    (varIndices.filter (fun p => p.1 = (b_el, Sink))).length = nSteps ∧
    (extractResults oilSol (b_el, Sink)).length = nSteps ∧
    extractResults oilSol (b_el, Sink) =
      [oilSol (b_el, Sink) 0, oilSol (b_el, Sink) 1,
       oilSol (b_el, Sink) 2, oilSol (b_el, Sink) 3] :=
  model_roundtrip_dimensions oilSol (b_el, Sink) (by decide)

/-- C8: if a block selector references a flow key absent from the Model
variable space, add_block fails with UnknownFlowKeyError and leaves the
previously registered blocks untouched. -/
theorem add_block_unknown_key (m : ModelBlocks) (b : SubBlock)
    (k : Node × Node) (hk : k ∈ b.selector) (hnot : k ∉ flowKeys) :
    (∃ e : UnknownFlowKeyError, (add_block m b).2 = some e) ∧
      (add_block m b).1 = m := by
  have hsome : (b.selector.find? (fun k => decide (k ∉ flowKeys))).isSome := by
    rw [List.find?_isSome]
    exact ⟨k, hk, by simpa using hnot⟩
  obtain ⟨e, he⟩ := Option.isSome_iff_exists.mp hsome
  unfold add_block
  rw [he]
  exact ⟨⟨⟨e⟩, rfl⟩, rfl⟩

/-- Witness for C8: registering a block whose selector holds the bogus
key (Sink, oil) on a model with one prior block errors out and keeps
the prior block list. -/
theorem add_block_unknown_key_witness :
    (∃ e : UnknownFlowKeyError,
      (add_block ⟨[⟨"Structural", []⟩]⟩ ⟨"MyBlock", [(Sink, oil)]⟩).2 = some e) ∧
    (add_block ⟨[⟨"Structural", []⟩]⟩ ⟨"MyBlock", [(Sink, oil)]⟩).1 =
      ⟨[⟨"Structural", []⟩]⟩ :=
  add_block_unknown_key ⟨[⟨"Structural", []⟩]⟩ ⟨"MyBlock", [(Sink, oil)]⟩
    (Sink, oil) (by decide) (by decide)

/-- C9: attaching an extension attribute after the Model is built leaves
the structural constraint set unchanged, while the attached value is
readable on the live flow object and makes the key selectable by the
attribute-presence selectors of later extension blocks. -/
theorem attach_after_build_frame (m : ModelFlows) (k : Node × Node) (v : ℚ)
    (w : Fin 4 → ℚ) :
    structuralOf (setEmissionFactor m k v) = structuralOf m ∧
    structuralOf (setOutflowShare m k w) = structuralOf m ∧
    ((setEmissionFactor m k v) k).ext.emission_factor = some v ∧
    ((setOutflowShare m k w) k).ext.outflow_share = some w ∧
    (k ∈ flowKeys → k ∈ commodityFlowsOf (setEmissionFactor m k v)) ∧
    (k ∈ flowKeys → k ∈ myflowsOf (setOutflowShare m k w)) := by
  refine ⟨?_, ?_, ?_, ?_, ?_, ?_⟩
  · unfold structuralOf
    exact congrArg structuralFrom (funext fun j => setEmissionFactor_base m k v j)
  · unfold structuralOf
    exact congrArg structuralFrom (funext fun j => setOutflowShare_base m k w j)
  · simp [setEmissionFactor]
  · simp [setOutflowShare]
  · intro hk
    simp [commodityFlowsOf, List.mem_filter, setEmissionFactor, hk]
  · intro hk
    simp [myflowsOf, List.mem_filter, setOutflowShare, hk]

/-- Witness for C9 at the freshly built model and the script attachments. -/
theorem attach_after_build_frame_witness :
    structuralOf (setEmissionFactor initialFlows (oil, pp_oil) (27/100)) =
      structuralOf initialFlows ∧
    structuralOf (setOutflowShare initialFlows (oil, pp_oil) ![1, 1/2, 0, 3/10]) =
      structuralOf initialFlows ∧
    ((setEmissionFactor initialFlows (oil, pp_oil) (27/100))
      (oil, pp_oil)).ext.emission_factor = some (27/100) ∧
    ((setOutflowShare initialFlows (oil, pp_oil) ![1, 1/2, 0, 3/10])
      (oil, pp_oil)).ext.outflow_share = some ![1, 1/2, 0, 3/10] ∧
    ((oil, pp_oil) ∈ flowKeys →
      (oil, pp_oil) ∈ commodityFlowsOf
        (setEmissionFactor initialFlows (oil, pp_oil) (27/100))) ∧
    ((oil, pp_oil) ∈ flowKeys →
      (oil, pp_oil) ∈ myflowsOf
        (setOutflowShare initialFlows (oil, pp_oil) ![1, 1/2, 0, 3/10])) :=
  attach_after_build_frame initialFlows (oil, pp_oil) (27/100) ![1, 1/2, 0, 3/10]

/-- C10: the sole inflow of pp_oil is the selected flow itself, so the
inflow-share constraint reduces to flow >= share[t] * flow; with every
share entry at most 1 it is satisfied by every nonnegative assignment. -/
theorem inflow_share_never_binds :
    (flowKeys.filter (fun k => k.2 = pp_oil) = [(oil, pp_oil)]) ∧
    ∀ sol : Sol, (∀ k ∈ flowKeys, ∀ t : Fin 4, 0 ≤ sol k t) →
      inflowShareOKOf omFlows sol := by
  refine ⟨by decide, ?_⟩
  intro sol hpos k hk t
  have hk2 : k ∈ MYFLOWS := hk
  rw [myflows_eval] at hk2
  fin_cases hk2
  rw [omFlows_share]
  simp only [Option.getD_some, sumIn_pp_oil]
  fin_cases t
  · show (![1, 1/2, 0, 3/10] : Fin 4 → ℚ) 0 * (sol (oil, pp_oil) 0 + 0) ≤
      sol (oil, pp_oil) 0
    norm_num
  · show (![1, 1/2, 0, 3/10] : Fin 4 → ℚ) 1 * (sol (oil, pp_oil) 1 + 0) ≤
      sol (oil, pp_oil) 1
    norm_num
    linarith [hpos (oil, pp_oil) (by decide) (1 : Fin 4)]
  · show (![1, 1/2, 0, 3/10] : Fin 4 → ℚ) 2 * (sol (oil, pp_oil) 2 + 0) ≤
      sol (oil, pp_oil) 2
    norm_num
    linarith [hpos (oil, pp_oil) (by decide) (2 : Fin 4)]
  · show (![1, 1/2, 0, 3/10] : Fin 4 → ℚ) 3 * (sol (oil, pp_oil) 3 + 0) ≤
      sol (oil, pp_oil) 3
    norm_num
    linarith [hpos (oil, pp_oil) (by decide) (3 : Fin 4)]

/-- Witness for C10: the zero assignment is nonnegative and satisfies
the inflow-share block constraint. -/
theorem inflow_share_never_binds_witness :
    inflowShareOKOf omFlows (fun _ _ => (0 : ℚ)) :=
  inflow_share_never_binds.2 (fun _ _ => 0) (fun _ _ _ => le_refl 0)
